import Mathlib

/-!
Verification development for the E-Accounting investment backend.

The data model (Investment / Transaction / InterestCalculation) and the
service operations are shallowly embedded from the JavaScript sources:
`src/services/interestService.js`, `src/services/transactionService.js`,
`src/services/scheduledInterestService.js`, `src/utils/calculations.js`,
the interest controller and the Joi validators.  Monetary values are
modelled as real numbers (the source uses JS numbers / Prisma Decimals),
timestamps as integer milliseconds (JS `Date.getTime()`), and every
Prisma `$transaction` block as a single atomic step of an
`Except AppError` function: an `.error` result performs no write at all,
mirroring the all-or-nothing roll-back of the wrapped store transaction.
-/

namespace EAccounting

open Classical

/-- `returnType` enum of the Investment model. -/
inductive ReturnType
  | FIXED
  | VARIABLE
deriving DecidableEq

/-- `status` enum of the Investment model. -/
inductive InvStatus
  | ACTIVE
  | COMPLETED
  | CANCELLED
deriving DecidableEq

/-- `compoundingFrequency` enum of the Investment model. -/
inductive Freq
  | DAILY
  | MONTHLY
  | QUARTERLY
  | ANNUALLY
deriving DecidableEq

/-- `type` enum of the Transaction model. -/
inductive TxnType
  | RETURN
  | WITHDRAWAL
  | DEPOSIT
  | DIVIDEND
deriving DecidableEq

/-- `calculationType` enum of the InterestCalculation model. -/
inductive CalcType
  | AUTOMATIC
  | MANUAL
deriving DecidableEq

/-- Investment row (Prisma model `Investment`), restricted to the fields the
claimed operations read or write.  Timestamps are integer milliseconds. -/
structure Investment where
  id : Nat
  userId : Nat
  initialAmount : ℝ
  currentBalance : ℝ
  returnType : ReturnType
  interestRate : Option ℝ
  compoundingFrequency : Option Freq
  startDate : Int
  status : InvStatus
  lastInterestCalculated : Option Int
  nextInterestDue : Option Int
  autoCalculateInterest : Bool

/-- Transaction row (Prisma model `Transaction`). -/
structure Transaction where
  id : Nat
  investmentId : Nat
  type : TxnType
  amount : ℝ
  balance : ℝ
  percentage : Option ℝ
  transactionDate : Int
  description : String

/-- InterestCalculation row (Prisma model `InterestCalculation`). -/
structure InterestCalculation where
  id : Nat
  investmentId : Nat
  calculationType : CalcType
  calculatedAt : Int
  periodStart : Int
  periodEnd : Int
  principalAmount : ℝ
  interestRate : ℝ
  interestEarned : ℝ
  newBalance : ℝ
  transactionId : Option Nat
  isReverted : Bool
  revertedAt : Option Int
  revertedBy : Option Nat

/-- Typed service error: `new Error(message)` with `err.status`, or an
`AppError(message, status, code)` from `transactionService.js`. -/
structure AppError where
  message : String
  status : Nat
  code : Option String
deriving DecidableEq

/-- Milliseconds per day, the `1000 * 3600 * 24` of `calculateDaysBetween`. -/
def msPerDay : Int := 86400000

/-- JS `Math.ceil(a / b)` on exact integer inputs with `b > 0`:
the ceiling of the rational quotient, computed as `-((-a).fdiv b)`. -/
def jsCeilDiv (a b : Int) : Int := -((-a).fdiv b)

/-- `calculateDaysBetween` from `src/utils/calculations.js` (lines 296-306):
`Math.ceil((end - start) / (1000 * 3600 * 24))` on millisecond timestamps. -/
def calculateDaysBetween (startDate endDate : Int) : Int :=
  jsCeilDiv (endDate - startDate) msPerDay

/-- Compounding-frequency-to-periods-per-year mapping DAILY=365, MONTHLY=12,
QUARTERLY=4, ANNUALLY=1 (spec section 4.1). -/
def frequencyN : Freq → ℕ
  | Freq.DAILY => 365
  | Freq.MONTHLY => 12
  | Freq.QUARTERLY => 4
  | Freq.ANNUALLY => 1

/-- Modelled from the spec: `calculatePeriodInterest(principal, annualRate,
compoundingFrequency, periodDays)` is imported by `interestService.js` from
`src/utils/calculations.js` but is absent from that file, so it is modelled
from spec section 4.1: `tYears = periodDays / 365.25`;
`effectiveRate = (1 + r/n)^(n * tYears) - 1`; `interest = principal *
effectiveRate`; `newBalance = principal + interest`.  The power is the real
power (`Real.rpow`, the exponent is in general not an integer). -/
noncomputable def calculatePeriodInterest (principal annualRate : ℝ) (freq : Freq)
    (periodDays : Int) : ℝ × ℝ :=
  let n : ℝ := (frequencyN freq : ℝ)
  let tYears : ℝ := (periodDays : ℝ) / 365.25
  let effectiveRate : ℝ := (1 + annualRate / n) ^ (n * tYears) - 1
  let interest : ℝ := principal * effectiveRate
  (interest, principal + interest)

/-- Period length used by `determineNextDueDate`, in milliseconds. -/
def periodLengthMs : Freq → Int
  | Freq.DAILY => msPerDay
  | Freq.MONTHLY => 30 * msPerDay
  | Freq.QUARTERLY => 91 * msPerDay
  | Freq.ANNUALLY => 365 * msPerDay

/-- Modelled from the spec: `nextDueDate(from, frequency)` (spec section 4.1)
advances `from` by one period (1 day / 1 month / 3 months / 1 year).
`determineNextDueDate` is imported by `interestService.js` from
`src/utils/calculations.js` but is absent from that file.  Calendar-month
advancement is abstracted to representative fixed period lengths over
millisecond timestamps; no claim in this development depends on the exact
value, only on the field being set to `determineNextDueDate from freq`. -/
def determineNextDueDate (fromDate : Int) (freq : Freq) : Int :=
  fromDate + periodLengthMs freq

/-- JS `parseFloat(x.toFixed(2))`: rounding to two decimal places.  On the
exact-decimal values used in this development this is round-to-nearest. -/
noncomputable def jsToFixed2 (x : ℝ) : ℝ := (round (x * 100) : ℤ) / 100

/-- Input element of `calculatePortfolioMetrics`: an object carrying
`principalAmount` and `currentBalance` (already coerced to numbers;
`parseFloat(...) || 0` on non-numeric input is out of scope). -/
structure PortfolioInvestment where
  principalAmount : ℝ
  currentBalance : ℝ

/-- The JS argument of `calculatePortfolioMetrics`: either a genuine array
or any non-array value (for which `Array.isArray` is false). -/
inductive PortfolioInput
  | notArray
  | arr (investments : List PortfolioInvestment)

/-- Result record of `calculatePortfolioMetrics`.  Best/worst performers are
the input element together with its index and its return percentage. -/
structure PortfolioMetrics where
  totalPrincipal : ℝ
  totalCurrentValue : ℝ
  totalReturns : ℝ
  returnPercentage : ℝ
  numberOfInvestments : Nat
  averageReturn : ℝ
  bestPerforming : Option (PortfolioInvestment × Nat × ℝ)
  worstPerforming : Option (PortfolioInvestment × Nat × ℝ)

/-- The all-zero record returned by `calculatePortfolioMetrics` for a
non-array or empty input (lines 228-239 of `calculations.js`). -/
def zeroPortfolioMetrics : PortfolioMetrics :=
  { totalPrincipal := 0
    totalCurrentValue := 0
    totalReturns := 0
    returnPercentage := 0
    numberOfInvestments := 0
    averageReturn := 0
    bestPerforming := none
    worstPerforming := none }

/-- Accumulator of the `forEach` loop of `calculatePortfolioMetrics`:
running totals, current index, and best/worst candidates.  `bestReturn`
and `worstReturn` start at minus/plus infinity in the source; they are
modelled as `none` (any eligible element beats an absent candidate). -/
structure PortfolioAcc where
  totalPrincipal : ℝ
  totalCurrentValue : ℝ
  index : Nat
  best : Option (PortfolioInvestment × Nat × ℝ)
  worst : Option (PortfolioInvestment × Nat × ℝ)

/-- One iteration of the `forEach` loop of `calculatePortfolioMetrics`. -/
noncomputable def portfolioStep (acc : PortfolioAcc) (investment : PortfolioInvestment) :
    PortfolioAcc :=
  let principal := investment.principalAmount
  let current := investment.currentBalance
  let returnPercentage : ℝ :=
    if principal > 0 then ((current - principal) / principal) * 100 else 0
  let best :=
    if (match acc.best with
        | none => True
        | some b => returnPercentage > b.2.2) ∧ principal > 0 then
      some (investment, acc.index, returnPercentage)
    else acc.best
  let worst :=
    if (match acc.worst with
        | none => True
        | some w => returnPercentage < w.2.2) ∧ principal > 0 then
      some (investment, acc.index, returnPercentage)
    else acc.worst
  { totalPrincipal := acc.totalPrincipal + principal
    totalCurrentValue := acc.totalCurrentValue + current
    index := acc.index + 1
    best := best
    worst := worst }

/-- `calculatePortfolioMetrics` from `src/utils/calculations.js`
(lines 227-288). -/
noncomputable def calculatePortfolioMetrics (input : PortfolioInput) : PortfolioMetrics :=
  match input with
  | PortfolioInput.notArray => zeroPortfolioMetrics
  | PortfolioInput.arr [] => zeroPortfolioMetrics
  | PortfolioInput.arr investments =>
    let acc := investments.foldl portfolioStep
      { totalPrincipal := 0, totalCurrentValue := 0, index := 0, best := none, worst := none }
    let totalReturns := acc.totalCurrentValue - acc.totalPrincipal
    let portfolioReturnPercentage : ℝ :=
      if acc.totalPrincipal > 0 then (totalReturns / acc.totalPrincipal) * 100 else 0
    let averageReturn : ℝ := totalReturns / (investments.length : ℝ)
    { totalPrincipal := jsToFixed2 acc.totalPrincipal
      totalCurrentValue := jsToFixed2 acc.totalCurrentValue
      totalReturns := jsToFixed2 totalReturns
      returnPercentage := jsToFixed2 portfolioReturnPercentage
      numberOfInvestments := investments.length
      averageReturn := jsToFixed2 averageReturn
      bestPerforming := acc.best.map (fun b => (b.1, b.2.1, jsToFixed2 b.2.2))
      worstPerforming := acc.worst.map (fun w => (w.1, w.2.1, jsToFixed2 w.2.2)) }

/-- The persistent store visible to the claimed operations: the three tables
plus id supplies for created rows (Prisma generates fresh ids). -/
structure DB where
  investments : List Investment
  transactions : List Transaction
  calculations : List InterestCalculation
  nextTxnId : Nat
  nextCalcId : Nat

/-- `prisma.investment.findFirst({ where: { id, userId } })`: the
ownership-scoped lookup of `getInvestmentOrThrow`. -/
def findInvestment (db : DB) (investmentId userId : Nat) : Option Investment :=
  db.investments.find? (fun i => i.id == investmentId && i.userId == userId)

/-- `prisma.investment.update({ where: { id } , data })`: replace the rows
with the given id by the image under `f`. -/
def mapInvestment (l : List Investment) (investmentId : Nat)
    (f : Investment → Investment) : List Investment :=
  l.map (fun i => if i.id = investmentId then f i else i)

/-- The non-reverted calculations of an investment, in table order. -/
def nonRevertedCalcs (calcs : List InterestCalculation) (investmentId : Nat) :
    List InterestCalculation :=
  calcs.filter (fun c => c.investmentId == investmentId && !c.isReverted)

/-- One step of `findFirst({ orderBy: { calculatedAt: desc } })`: keep the
later of the candidate so far and the next row (first row wins ties). -/
def pickLater (acc : Option InterestCalculation) (c : InterestCalculation) :
    Option InterestCalculation :=
  match acc with
  | none => some c
  | some m => if c.calculatedAt > m.calculatedAt then some c else some m

/-- The row with maximal `calculatedAt` (first such row on ties), i.e.
`findFirst({ orderBy: { calculatedAt: desc } })`. -/
def maxByCalculatedAt (l : List InterestCalculation) : Option InterestCalculation :=
  l.foldl pickLater none

/-- The revert target: most recent non-reverted InterestCalculation of the
investment (`interestService.js` lines 119-122). -/
def lastNonReverted (calcs : List InterestCalculation) (investmentId : Nat) :
    Option InterestCalculation :=
  maxByCalculatedAt (nonRevertedCalcs calcs investmentId)

/-- The calculation immediately prior to `cutoff`: non-reverted, same
investment, `calculatedAt < cutoff`, most recent first
(`interestService.js` lines 142-145). -/
def lastNonRevertedBefore (calcs : List InterestCalculation) (investmentId : Nat)
    (cutoff : Int) : Option InterestCalculation :=
  maxByCalculatedAt (calcs.filter
    (fun c => c.investmentId == investmentId && !c.isReverted &&
      decide (c.calculatedAt < cutoff)))

/-- `prisma.transaction.findFirst({ where: { id, investment: { userId } } })`:
the transaction together with its owning investment, or `none` when the
transaction is missing or its investment is not the caller's. -/
def findOwnedTransaction (db : DB) (transactionId userId : Nat) :
    Option (Transaction × Investment) :=
  match db.transactions.find? (fun t => t.id == transactionId) with
  | none => none
  | some t =>
    match db.investments.find? (fun i => i.id == t.investmentId && i.userId == userId) with
    | none => none
    | some i => some (t, i)

/-- `getBalanceImpact` from `transactionService.js` (lines 757-768):
RETURN/DIVIDEND/DEPOSIT add the amount, WITHDRAWAL subtracts its
absolute value. -/
noncomputable def getBalanceImpact (type : TxnType) (amount : ℝ) : ℝ :=
  match type with
  | TxnType.RETURN => amount
  | TxnType.DIVIDEND => amount
  | TxnType.DEPOSIT => amount
  | TxnType.WITHDRAWAL => -|amount|

/-- The `Investment not found` error of `getInvestmentOrThrow`
(`interestService.js` lines 13-16). -/
def investmentNotFound : AppError := ⟨"Investment not found", 404, none⟩

/-- The success payload of `calculateInterestNow`: the post-transaction
store, the created RETURN transaction and the created calculation row.
Spelling it out as a definition lets theorems name the exact result. -/
noncomputable def calcNowOk (db : DB) (investment : Investment) (rate : ℝ)
    (now : Int) : DB × Transaction × InterestCalculation :=
  let periodStart := investment.lastInterestCalculated.getD investment.startDate
  let days := calculateDaysBetween periodStart now
  let compounding := investment.compoundingFrequency.getD Freq.MONTHLY
  let principal := investment.currentBalance
  let result := calculatePeriodInterest principal rate compounding days
  let txn : Transaction :=
    { id := db.nextTxnId
      investmentId := investment.id
      type := TxnType.RETURN
      amount := result.1
      balance := result.2
      percentage := none
      transactionDate := now
      description := "Auto interest for " ++ toString days ++ " day(s)" }
  let calcRow : InterestCalculation :=
    { id := db.nextCalcId
      investmentId := investment.id
      calculationType := CalcType.AUTOMATIC
      calculatedAt := now
      periodStart := periodStart
      periodEnd := now
      principalAmount := principal
      interestRate := rate
      interestEarned := result.1
      newBalance := result.2
      transactionId := some txn.id
      isReverted := false
      revertedAt := none
      revertedBy := none }
  let updatedInvestment : Investment :=
    { investment with
        currentBalance := result.2
        lastInterestCalculated := some now
        nextInterestDue := some (determineNextDueDate now compounding) }
  ({ db with
      investments := mapInvestment db.investments investment.id (fun _ => updatedInvestment)
      transactions := db.transactions ++ [txn]
      calculations := db.calculations ++ [calcRow]
      nextTxnId := db.nextTxnId + 1
      nextCalcId := db.nextCalcId + 1 },
   txn, calcRow)

/-- `calculateInterestNow` from `src/services/interestService.js` (lines
39-98).  `now` is the injected clock reading (`new Date()`); the body of
`prisma.$transaction` is a single atomic step. -/
noncomputable def calculateInterestNow (db : DB) (investmentId userId : Nat)
    (now : Int) : Except AppError (DB × Transaction × InterestCalculation) :=
  match findInvestment db investmentId userId with
  | none => .error investmentNotFound
  | some investment =>
    if investment.returnType ≠ ReturnType.FIXED then
      .error ⟨"Operation only valid for FIXED return investments", 400, none⟩
    else if investment.status ≠ InvStatus.ACTIVE then
      .error ⟨"Investment is not ACTIVE", 400, none⟩
    else
      match investment.interestRate with
      | none => .error ⟨"interestRate is not set for this investment", 400, none⟩
      | some rate =>
        let periodStart := investment.lastInterestCalculated.getD investment.startDate
        let days := calculateDaysBetween periodStart now
        if days ≤ 0 then
          .error ⟨"No new period to calculate interest for", 400, none⟩
        else
          .ok (calcNowOk db investment rate now)

/-- Tail of a successful revert (`interestService.js` lines 141-158): find
the previous non-reverted calculation on the already-updated tables, restore
`lastInterestCalculated` from it (or null), recompute `nextInterestDue`, and
set the balance to `currentBalance - interestEarned`. -/
noncomputable def revertFinish (db : DB) (investment : Investment)
    (lastCalc : InterestCalculation) (userId : Nat) (now : Int)
    (txns : List Transaction) (calcs : List InterestCalculation) :
    DB × InterestCalculation :=
  let reverted : InterestCalculation :=
    { lastCalc with isReverted := true, revertedAt := some now, revertedBy := some userId }
  let prevCalc := lastNonRevertedBefore calcs investment.id lastCalc.calculatedAt
  let newBalance := investment.currentBalance - lastCalc.interestEarned
  let freq := investment.compoundingFrequency.getD Freq.MONTHLY
  let nextFrom := match prevCalc with | some p => p.calculatedAt | none => now
  let updatedInvestment : Investment :=
    { investment with
        currentBalance := newBalance
        lastInterestCalculated := prevCalc.map (fun p => p.calculatedAt)
        nextInterestDue := some (determineNextDueDate nextFrom freq) }
  ({ db with
      investments := mapInvestment db.investments investment.id (fun _ => updatedInvestment)
      transactions := txns
      calculations := calcs },
   reverted)

/-- `revertLastInterestCalculation` from `src/services/interestService.js`
(lines 116-160).  The linked transaction is deleted when present; a Prisma
delete of a missing row throws (P2025) and rolls the whole step back. -/
noncomputable def revertLastInterestCalculation (db : DB) (investmentId userId : Nat)
    (now : Int) : Except AppError (DB × InterestCalculation) :=
  match findInvestment db investmentId userId with
  | none => .error investmentNotFound
  | some investment =>
    match lastNonReverted db.calculations investment.id with
    | none => .error ⟨"No interest calculation to revert", 400, none⟩
    | some lastCalc =>
      let calcs := db.calculations.map (fun c =>
        if c.id = lastCalc.id then
          { c with isReverted := true, revertedAt := some now, revertedBy := some userId }
        else c)
      match lastCalc.transactionId with
      | some tid =>
        if db.transactions.any (fun t => t.id == tid) then
          .ok (revertFinish db investment lastCalc userId now
            (db.transactions.filter (fun t => t.id != tid)) calcs)
        else
          .error ⟨"Record to delete does not exist", 500, none⟩
      | none =>
        .ok (revertFinish db investment lastCalc userId now db.transactions calcs)

/-- `updateReturnPercentage` from `src/services/interestService.js`
(lines 162-199). -/
noncomputable def updateReturnPercentage (db : DB) (investmentId userId : Nat)
    (newPercentage : ℝ) (effectiveDate : Int) (description : Option String) :
    Except AppError (DB × Transaction) :=
  match findInvestment db investmentId userId with
  | none => .error investmentNotFound
  | some investment =>
    if investment.returnType ≠ ReturnType.VARIABLE then
      .error ⟨"Operation only valid for VARIABLE return investments", 400, none⟩
    else if investment.status ≠ InvStatus.ACTIVE then
      .error ⟨"Investment is not ACTIVE", 400, none⟩
    else
      let pct := newPercentage
      let current := investment.currentBalance
      let amount := current * (pct / 100)
      let newBalance := current + amount
      let txn : Transaction :=
        { id := db.nextTxnId
          investmentId := investment.id
          type := TxnType.RETURN
          amount := amount
          balance := newBalance
          percentage := some pct
          transactionDate := effectiveDate
          description := description.getD "Variable return" }
      .ok ({ db with
              investments := mapInvestment db.investments investment.id
                (fun _ => { investment with currentBalance := newBalance })
              transactions := db.transactions ++ [txn]
              nextTxnId := db.nextTxnId + 1 },
           txn)

/-- `updateBalanceCalculateReturn` from `src/services/interestService.js`
(lines 201-243). -/
noncomputable def updateBalanceCalculateReturn (db : DB) (investmentId userId : Nat)
    (newBalance : ℝ) (effectiveDate : Int) (description : Option String) :
    Except AppError (DB × Transaction) :=
  match findInvestment db investmentId userId with
  | none => .error investmentNotFound
  | some investment =>
    if investment.returnType ≠ ReturnType.VARIABLE then
      .error ⟨"Operation only valid for VARIABLE return investments", 400, none⟩
    else if investment.status ≠ InvStatus.ACTIVE then
      .error ⟨"Investment is not ACTIVE", 400, none⟩
    else
      let current := investment.currentBalance
      let nextBalance := newBalance
      if nextBalance < 0 then
        .error ⟨"New balance cannot be negative", 400, none⟩
      else
        let returnAmount := nextBalance - current
        let pct : ℝ := if current > 0 then (returnAmount / current) * 100 else 0
        let txn : Transaction :=
          { id := db.nextTxnId
            investmentId := investment.id
            type := TxnType.RETURN
            amount := returnAmount
            balance := nextBalance
            percentage := some pct
            transactionDate := effectiveDate
            description := description.getD "Variable return via balance update" }
        .ok ({ db with
                investments := mapInvestment db.investments investment.id
                  (fun _ => { investment with currentBalance := nextBalance })
                transactions := db.transactions ++ [txn]
                nextTxnId := db.nextTxnId + 1 },
             txn)

/-- `updateReturnPercentageHandler`: the controller validates the body
against `updateReturnPercentageSchema` (`percentage` between -100 and 1000,
`src/utils/validation.js` lines 479-484) before calling the service. -/
noncomputable def updateReturnPercentageEndpoint (db : DB) (investmentId userId : Nat)
    (percentage : ℝ) (effectiveDate : Int) (description : Option String) :
    Except AppError (DB × Transaction) :=
  if -100 ≤ percentage ∧ percentage ≤ 1000 then
    updateReturnPercentage db investmentId userId percentage effectiveDate description
  else
    .error ⟨"Validation error", 400, none⟩

/-- `updateBalanceCalculateReturnHandler`: the controller validates the body
against `updateBalanceSchema` (`newBalance` at least 0) before calling the
service. -/
noncomputable def updateBalanceEndpoint (db : DB) (investmentId userId : Nat)
    (newBalance : ℝ) (effectiveDate : Int) (description : Option String) :
    Except AppError (DB × Transaction) :=
  if 0 ≤ newBalance then
    updateBalanceCalculateReturn db investmentId userId newBalance effectiveDate description
  else
    .error ⟨"Validation error", 400, none⟩

/-- Payload of `createTransaction` (after Joi validation of shape). -/
structure TxnInput where
  investmentId : Nat
  type : TxnType
  amount : ℝ
  percentage : Option ℝ
  transactionDate : Int
  description : Option String

/-- `createTransaction` from `src/services/transactionService.js`
(lines 12-146). -/
noncomputable def createTransaction (db : DB) (userId : Nat) (input : TxnInput) :
    Except AppError (DB × Transaction) :=
  match findInvestment db input.investmentId userId with
  | none => .error ⟨"Investment not found", 404, some "INVESTMENT_NOT_FOUND"⟩
  | some investment =>
    if investment.status = InvStatus.CANCELLED then
      .error ⟨"Cannot create transactions for cancelled investments", 400,
        some "INVALID_OPERATION"⟩
    else if input.type = TxnType.WITHDRAWAL ∧ |input.amount| > investment.currentBalance then
      .error ⟨"Withdrawal amount cannot exceed current balance", 400,
        some "INSUFFICIENT_BALANCE"⟩
    else
      let balanceChange := getBalanceImpact input.type input.amount
      let newBalance :=
        if balanceChange ≠ 0 then investment.currentBalance + balanceChange
        else investment.currentBalance
      if balanceChange ≠ 0 ∧ newBalance < 0 then
        .error ⟨"Transaction would result in negative balance", 400,
          some "NEGATIVE_BALANCE"⟩
      else
        let txn : Transaction :=
          { id := db.nextTxnId
            investmentId := input.investmentId
            type := input.type
            amount := input.amount
            balance := newBalance
            percentage := input.percentage
            transactionDate := input.transactionDate
            description := input.description.getD "" }
        .ok ({ db with
                investments :=
                  if balanceChange ≠ 0 then
                    mapInvestment db.investments input.investmentId
                      (fun i => { i with currentBalance := newBalance })
                  else db.investments
                transactions := db.transactions ++ [txn]
                nextTxnId := db.nextTxnId + 1 },
             txn)

/-- Payload of `updateTransaction`.  The balance logic of the source only
reads the (optional) new `amount`; other updatable fields do not affect
balances and are omitted. -/
structure TxnUpdate where
  amount : Option ℝ
  transactionDate : Option Int
  description : Option String

/-- `updateTransaction` from `src/services/transactionService.js`
(lines 338-504).  The old and new balance impacts are both computed with the
transaction's existing type; the investment balance is only touched when the
adjustment is non-zero. -/
noncomputable def updateTransaction (db : DB) (transactionId userId : Nat)
    (upd : TxnUpdate) : Except AppError (DB × Transaction) :=
  match findOwnedTransaction db transactionId userId with
  | none => .error ⟨"Transaction not found", 404, some "TRANSACTION_NOT_FOUND"⟩
  | some (existing, investment) =>
    if investment.status = InvStatus.CANCELLED then
      .error ⟨"Cannot update transactions for cancelled investments", 400,
        some "INVALID_OPERATION"⟩
    else
      let balanceAdjustment :=
        match upd.amount with
        | some newAmount =>
          getBalanceImpact existing.type newAmount - getBalanceImpact existing.type existing.amount
        | none => 0
      let newBalance := investment.currentBalance + balanceAdjustment
      if upd.amount.isSome ∧ newBalance < 0 then
        .error ⟨"Updated transaction would result in negative investment balance", 400,
          some "NEGATIVE_BALANCE"⟩
      else
        let txn : Transaction :=
          { existing with
              amount := upd.amount.getD existing.amount
              transactionDate := upd.transactionDate.getD existing.transactionDate
              description := upd.description.getD existing.description
              balance :=
                if balanceAdjustment ≠ 0 then newBalance else investment.currentBalance }
        .ok ({ db with
                transactions := db.transactions.map (fun t =>
                  if t.id = transactionId then txn else t)
                investments :=
                  if balanceAdjustment ≠ 0 then
                    mapInvestment db.investments existing.investmentId
                      (fun i => { i with currentBalance := i.currentBalance + balanceAdjustment })
                  else db.investments },
             txn)

/-- `deleteTransaction` from `src/services/transactionService.js`
(lines 513-625). -/
noncomputable def deleteTransaction (db : DB) (transactionId userId : Nat) :
    Except AppError DB :=
  match findOwnedTransaction db transactionId userId with
  | none => .error ⟨"Transaction not found", 404, some "TRANSACTION_NOT_FOUND"⟩
  | some (transaction, investment) =>
    if investment.status = InvStatus.CANCELLED then
      .error ⟨"Cannot delete transactions for cancelled investments", 400,
        some "INVALID_OPERATION"⟩
    else
      let balanceAdjustment := -(getBalanceImpact transaction.type transaction.amount)
      let newBalance := investment.currentBalance + balanceAdjustment
      if newBalance < 0 then
        .error ⟨"Deleting this transaction would result in negative investment balance",
          400, some "NEGATIVE_BALANCE"⟩
      else
        .ok { db with
              transactions := db.transactions.filter (fun t => t.id != transactionId)
              investments :=
                if balanceAdjustment ≠ 0 then
                  mapInvestment db.investments transaction.investmentId
                    (fun i => { i with currentBalance := newBalance })
                else db.investments }

/-- `updateInvestmentScheduleHandler` from the interest controller: validates
the payload shape, then runs `prisma.investment.update({ where: { id } })` —
the `where` clause carries no `userId`.  A Prisma update of a missing row
throws (P2025). -/
def updateInvestmentScheduleHandler (db : DB) (investmentId userId : Nat)
    (autoCalculate : Bool) (freq : Freq) : Except AppError DB :=
  if db.investments.any (fun i => i.id == investmentId) then
    .ok { db with
          investments := mapInvestment db.investments investmentId
            (fun i => { i with
                autoCalculateInterest := autoCalculate
                compoundingFrequency := some freq }) }
  else
    .error ⟨"Record not found", 500, none⟩

/-- The due query of `processScheduledInterestCalculations`
(`scheduledInterestService.js` lines 6-14). -/
def dueInvestments (db : DB) (now : Int) : List Investment :=
  db.investments.filter (fun i =>
    i.returnType == ReturnType.FIXED && i.autoCalculateInterest &&
    i.status == InvStatus.ACTIVE &&
    (match i.nextInterestDue with
     | some d => decide (d ≤ now)
     | none => false))

/-- The `{processed, succeeded, failed, errors[]}` summary of the scheduler. -/
structure BatchSummary where
  processed : Nat
  succeeded : Nat
  failed : Nat
  errors : List (Nat × String)

/-- One loop iteration of `processScheduledInterestCalculations`: invoke
`calculateInterestNow` for the investment, count the outcome, and keep the
previous store on failure. -/
noncomputable def schedStep (now : Int) (acc : BatchSummary × DB) (inv : Investment) :
    BatchSummary × DB :=
  match calculateInterestNow acc.2 inv.id inv.userId now with
  | .ok (db2, _, _) => ({ acc.1 with succeeded := acc.1.succeeded + 1 }, db2)
  | .error e =>
    ({ acc.1 with
        failed := acc.1.failed + 1
        errors := acc.1.errors ++ [(inv.id, e.message)] }, acc.2)

/-- `processScheduledInterestCalculations` from
`src/services/scheduledInterestService.js` (lines 4-29). -/
noncomputable def processScheduledInterestCalculations (db : DB) (now : Int) :
    BatchSummary × DB :=
  let due := dueInvestments db now
  due.foldl (schedStep now) (⟨due.length, 0, 0, []⟩, db)

/-- Whether an operation was rejected. -/
def isErr {α : Type} : Except AppError α → Bool
  | .error _ => true
  | .ok _ => false

/-- The engine and ledger operations of claim C4, dispatched uniformly.
The variable-return updates go through their controller endpoints (where the
Joi percentage/balance bounds live); the rest are the service functions. -/
inductive Op
  | calcInterest (investmentId userId : Nat) (now : Int)
  | varPercentage (investmentId userId : Nat) (percentage : ℝ) (effectiveDate : Int)
      (description : Option String)
  | varBalance (investmentId userId : Nat) (newBalance : ℝ) (effectiveDate : Int)
      (description : Option String)
  | txnCreate (userId : Nat) (input : TxnInput)
  | txnUpdate (transactionId userId : Nat) (upd : TxnUpdate)
  | txnDelete (transactionId userId : Nat)

/-- Run one claim-C4 operation, keeping only the resulting store. -/
noncomputable def runOp (op : Op) (db : DB) : Except AppError DB :=
  match op with
  | Op.calcInterest investmentId userId now =>
    (calculateInterestNow db investmentId userId now).map (fun r => r.1)
  | Op.varPercentage investmentId userId percentage effectiveDate description =>
    (updateReturnPercentageEndpoint db investmentId userId percentage effectiveDate
      description).map (fun r => r.1)
  | Op.varBalance investmentId userId newBalance effectiveDate description =>
    (updateBalanceEndpoint db investmentId userId newBalance effectiveDate
      description).map (fun r => r.1)
  | Op.txnCreate userId input => (createTransaction db userId input).map (fun r => r.1)
  | Op.txnUpdate transactionId userId upd =>
    (updateTransaction db transactionId userId upd).map (fun r => r.1)
  | Op.txnDelete transactionId userId => deleteTransaction db transactionId userId

/-- All stored balances are non-negative. -/
def balancesNonneg (db : DB) : Prop :=
  ∀ i ∈ db.investments, 0 ≤ i.currentBalance

/-- All stored fixed rates are non-negative (Joi bounds `interestRate`
between 0 and 100 at investment creation and update). -/
def ratesNonneg (db : DB) : Prop :=
  ∀ i ∈ db.investments, ∀ r : ℝ, i.interestRate = some r → 0 ≤ r

/-! ### Helper lemmas -/

theorem findInvestment_ids {db : DB} {investmentId userId : Nat} {inv : Investment}
    (hfind : findInvestment db investmentId userId = some inv) :
    inv.id = investmentId ∧ inv.userId = userId := by
  have h := List.find?_some hfind
  simp only [Bool.and_eq_true, beq_iff_eq] at h
  exact h

theorem findInvestment_mem {db : DB} {investmentId userId : Nat} {inv : Investment}
    (hfind : findInvestment db investmentId userId = some inv) :
    inv ∈ db.investments :=
  List.mem_of_find?_eq_some hfind

theorem find?_map_update (l : List Investment) (investmentId userId : Nat)
    (upd : Investment)
    (hex : (l.find? (fun i => i.id == investmentId && i.userId == userId)).isSome)
    (hid : upd.id = investmentId) (huid : upd.userId = userId) :
    (l.map (fun i => if i.id = investmentId then upd else i)).find?
      (fun i => i.id == investmentId && i.userId == userId) = some upd := by
  induction l with
  | nil => simp at hex
  | cons e rest ih =>
    by_cases he : e.id = investmentId
    · simp only [List.map_cons, if_pos he]
      exact List.find?_cons_of_pos _ (by simp [hid, huid])
    · simp only [List.map_cons, if_neg he]
      rw [List.find?_cons_of_neg _ (by simp [he])]
      apply ih
      rwa [List.find?_cons_of_neg _ (by simp [he])] at hex

theorem findInvestment_after_update {db db2 : DB} {investmentId userId : Nat}
    {inv : Investment} (upd : Investment)
    (hfind : findInvestment db investmentId userId = some inv)
    (hinv2 : db2.investments = mapInvestment db.investments inv.id (fun _ => upd))
    (hid : upd.id = investmentId) (huid : upd.userId = userId) :
    findInvestment db2 investmentId userId = some upd := by
  obtain ⟨hinvid, -⟩ := findInvestment_ids hfind
  unfold findInvestment at *
  rw [hinv2]
  unfold mapInvestment
  rw [hinvid]
  exact find?_map_update _ _ _ _ (by rw [hfind]; rfl) hid huid

theorem foldl_pickLater_some (l : List InterestCalculation) :
    ∀ (acc : Option InterestCalculation) (m : InterestCalculation),
      l.foldl pickLater acc = some m → acc = some m ∨ m ∈ l := by
  induction l with
  | nil => intro acc m h; exact Or.inl h
  | cons c rest ih =>
    intro acc m h
    rcases ih (pickLater acc c) m h with h' | h'
    · cases acc with
      | none =>
        simp only [pickLater] at h'
        injection h' with h''
        right; rw [← h'']; exact List.mem_cons_self c rest
      | some a =>
        simp only [pickLater] at h'
        by_cases hgt : c.calculatedAt > a.calculatedAt
        · rw [if_pos hgt] at h'
          injection h' with h''
          right; rw [← h'']; exact List.mem_cons_self c rest
        · rw [if_neg hgt] at h'
          exact Or.inl h'
    · right; exact List.mem_cons_of_mem c h'

theorem maxByCalculatedAt_mem {l : List InterestCalculation} {m : InterestCalculation}
    (h : maxByCalculatedAt l = some m) : m ∈ l := by
  rcases foldl_pickLater_some l none m h with h' | h'
  · exact absurd h' (by simp)
  · exact h'

theorem maxByCalculatedAt_append_one (l : List InterestCalculation)
    (x : InterestCalculation) :
    maxByCalculatedAt (l ++ [x]) = pickLater (maxByCalculatedAt l) x := by
  unfold maxByCalculatedAt
  rw [List.foldl_append]
  rfl

theorem maxByCalculatedAt_append_max (l : List InterestCalculation)
    (x : InterestCalculation) (h : ∀ c ∈ l, c.calculatedAt < x.calculatedAt) :
    maxByCalculatedAt (l ++ [x]) = some x := by
  rw [maxByCalculatedAt_append_one]
  cases hm : maxByCalculatedAt l with
  | none => rfl
  | some m =>
    have hmem := maxByCalculatedAt_mem hm
    simp only [pickLater, if_pos (h m hmem)]

theorem calculateInterestNow_eq_ok {db : DB} {investmentId userId : Nat} {now : Int}
    {inv : Investment} {rate : ℝ}
    (hfind : findInvestment db investmentId userId = some inv)
    (hft : inv.returnType = ReturnType.FIXED)
    (hst : inv.status = InvStatus.ACTIVE)
    (hr : inv.interestRate = some rate)
    (hdays : 0 < calculateDaysBetween (inv.lastInterestCalculated.getD inv.startDate) now) :
    calculateInterestNow db investmentId userId now = .ok (calcNowOk db inv rate now) := by
  simp [calculateInterestNow, hfind, hr, hft, hst, not_le.mpr hdays]

theorem schedStep_foldl_processed (now : Int) (l : List Investment) :
    ∀ acc : BatchSummary × DB, (l.foldl (schedStep now) acc).1.processed = acc.1.processed := by
  induction l with
  | nil => intro acc; rfl
  | cons inv rest ih =>
    intro acc
    rw [List.foldl_cons, ih]
    cases hc : calculateInterestNow acc.2 inv.id inv.userId now with
    | ok r => obtain ⟨a, b, c⟩ := r; simp [schedStep, hc]
    | error e => simp [schedStep, hc]

theorem schedStep_foldl_counts (now : Int) (l : List Investment) :
    ∀ acc : BatchSummary × DB,
      (l.foldl (schedStep now) acc).1.succeeded + (l.foldl (schedStep now) acc).1.failed =
        acc.1.succeeded + acc.1.failed + l.length := by
  induction l with
  | nil => intro acc; simp
  | cons inv rest ih =>
    intro acc
    rw [List.foldl_cons, ih]
    cases hc : calculateInterestNow acc.2 inv.id inv.userId now with
    | ok r =>
      obtain ⟨a, b, c⟩ := r
      simp [schedStep, hc]
      omega
    | error e =>
      simp [schedStep, hc]
      omega

theorem schedStep_foldl_errors (now : Int) (l : List Investment) :
    ∀ acc : BatchSummary × DB,
      acc.1.errors.length = acc.1.failed →
      (l.foldl (schedStep now) acc).1.errors.length = (l.foldl (schedStep now) acc).1.failed := by
  induction l with
  | nil => intro acc h; exact h
  | cons inv rest ih =>
    intro acc h
    rw [List.foldl_cons]
    apply ih
    cases hc : calculateInterestNow acc.2 inv.id inv.userId now with
    | ok r => obtain ⟨a, b, c⟩ := r; simp [schedStep, hc, h]
    | error e => simp [schedStep, hc, h]

/-! ### Claim theorems -/

/-- Claim C2: the period-interest computation used by Calculate-Now and
Preview returns, for positive principal, any annual rate, a compounding
frequency with `n` in 365/12/4/1, and positive period days,
`interest = principal * ((1 + r/n)^(n * periodDays / 365.25) - 1)` and
`newBalance = principal + interest`.  (`calculatePeriodInterest` is
modelled from the spec, as it is missing from `src/utils/calculations.js`.) -/
theorem claim2_periodInterest_formula (principal annualRate : ℝ) (freq : Freq)
    (periodDays : Int) (hp : 0 < principal) (hd : 0 < periodDays) :
    (calculatePeriodInterest principal annualRate freq periodDays).1 =
      principal * ((1 + annualRate / (frequencyN freq : ℝ)) ^
        ((frequencyN freq : ℝ) * (periodDays : ℝ) / 365.25) - 1) ∧
    (calculatePeriodInterest principal annualRate freq periodDays).2 =
      principal + (calculatePeriodInterest principal annualRate freq periodDays).1 ∧
    ((frequencyN Freq.DAILY : ℝ) = 365 ∧ (frequencyN Freq.MONTHLY : ℝ) = 12 ∧
      (frequencyN Freq.QUARTERLY : ℝ) = 4 ∧ (frequencyN Freq.ANNUALLY : ℝ) = 1) := by
  refine ⟨?_, rfl, by norm_num [frequencyN]⟩
  simp only [calculatePeriodInterest, mul_div_assoc]

/-- Witness for C2 at the spec test vector: principal 10000, rate 0.12,
MONTHLY compounding, 31 days. -/
theorem claim2_witness :
    (0:ℝ) < 10000 ∧ (0:Int) < 31 ∧
    ((calculatePeriodInterest 10000 0.12 Freq.MONTHLY 31).1 =
      10000 * ((1 + 0.12 / (frequencyN Freq.MONTHLY : ℝ)) ^
        ((frequencyN Freq.MONTHLY : ℝ) * ((31 : Int) : ℝ) / 365.25) - 1) ∧
    (calculatePeriodInterest 10000 0.12 Freq.MONTHLY 31).2 =
      10000 + (calculatePeriodInterest 10000 0.12 Freq.MONTHLY 31).1 ∧
    ((frequencyN Freq.DAILY : ℝ) = 365 ∧ (frequencyN Freq.MONTHLY : ℝ) = 12 ∧
      (frequencyN Freq.QUARTERLY : ℝ) = 4 ∧ (frequencyN Freq.ANNUALLY : ℝ) = 1)) :=
  ⟨by norm_num, by norm_num,
    claim2_periodInterest_formula 10000 0.12 Freq.MONTHLY 31 (by norm_num) (by norm_num)⟩

/-- Claim C6: when an investment has no non-reverted InterestCalculation,
Revert-Last-Calculation fails with the InvalidState error "No interest
calculation to revert"; no store row is written (an `.error` result of the
atomic step carries no store at all). -/
theorem claim6_revert_requires_target {db : DB} {investmentId userId : Nat} {now : Int}
    {inv : Investment}
    (hfind : findInvestment db investmentId userId = some inv)
    (hnone : lastNonReverted db.calculations inv.id = none) :
    revertLastInterestCalculation db investmentId userId now =
      .error ⟨"No interest calculation to revert", 400, none⟩ := by
  simp [revertLastInterestCalculation, hfind, hnone]

/-- Example investment and store for the C6 witness: an owned ACTIVE fixed
investment with an empty calculation history. -/
noncomputable def exInv6 : Investment :=
  { id := 1, userId := 1, initialAmount := 100, currentBalance := 100,
    returnType := ReturnType.FIXED, interestRate := some 5,
    compoundingFrequency := some Freq.MONTHLY, startDate := 0,
    status := InvStatus.ACTIVE, lastInterestCalculated := none,
    nextInterestDue := none, autoCalculateInterest := true }

noncomputable def exDB6 : DB :=
  { investments := [exInv6], transactions := [], calculations := [],
    nextTxnId := 10, nextCalcId := 20 }

/-- Witness for C6: reverting on an empty calculation history fails. -/
theorem claim6_witness :
    findInvestment exDB6 1 1 = some exInv6 ∧
    lastNonReverted exDB6.calculations exInv6.id = none ∧
    revertLastInterestCalculation exDB6 1 1 5 =
      .error ⟨"No interest calculation to revert", 400, none⟩ :=
  ⟨rfl, rfl, claim6_revert_requires_target (rfl) (rfl)⟩

/-- Claim C9: a scheduler run processes each due investment independently —
one failing Calculate-Now only adds an error entry — and the summary
satisfies `processed` = number of due investments, `succeeded + failed =
processed`, and one `errors[]` entry per failure. -/
theorem claim9_scheduler_summary (db : DB) (now : Int) :
    (processScheduledInterestCalculations db now).1.processed =
      (dueInvestments db now).length ∧
    (processScheduledInterestCalculations db now).1.succeeded +
      (processScheduledInterestCalculations db now).1.failed =
      (processScheduledInterestCalculations db now).1.processed ∧
    (processScheduledInterestCalculations db now).1.errors.length =
      (processScheduledInterestCalculations db now).1.failed := by
  unfold processScheduledInterestCalculations
  refine ⟨?_, ?_, ?_⟩
  · rw [schedStep_foldl_processed]
  · rw [schedStep_foldl_counts, schedStep_foldl_processed]; simp
  · exact schedStep_foldl_errors now _ _ rfl

/-- Claim C10: `calculatePortfolioMetrics` returns the fixed all-zero record
(with null best/worst performers) for any non-array input and for the empty
array, without raising an error. -/
theorem claim10_portfolioMetrics_trivial_input :
    calculatePortfolioMetrics PortfolioInput.notArray =
      { totalPrincipal := 0, totalCurrentValue := 0, totalReturns := 0,
        returnPercentage := 0, numberOfInvestments := 0, averageReturn := 0,
        bestPerforming := none, worstPerforming := none } ∧
    calculatePortfolioMetrics (PortfolioInput.arr []) =
      { totalPrincipal := 0, totalCurrentValue := 0, totalReturns := 0,
        returnPercentage := 0, numberOfInvestments := 0, averageReturn := 0,
        bestPerforming := none, worstPerforming := none } :=
  ⟨rfl, rfl⟩

theorem jsCeilDiv_eq_ceil (m : ℤ) (d : ℕ) : jsCeilDiv m d = ⌈(m : ℚ) / (d : ℚ)⌉ := by
  rw [show ((m : ℚ) / (d : ℚ)) = -(((-m : ℤ) : ℚ) / ((d : ℕ) : ℚ)) by push_cast; ring]
  rw [Int.ceil_neg, Rat.floor_intCast_div_natCast, jsCeilDiv,
    Int.fdiv_eq_ediv _ (by positivity)]

/-- Shared concrete scenario: an owned ACTIVE fixed investment with rate 5,
monthly compounding, start at epoch, and empty history. -/
noncomputable def exInvF : Investment :=
  { id := 1, userId := 1, initialAmount := 100, currentBalance := 100,
    returnType := ReturnType.FIXED, interestRate := some 5,
    compoundingFrequency := some Freq.MONTHLY, startDate := 0,
    status := InvStatus.ACTIVE, lastInterestCalculated := none,
    nextInterestDue := none, autoCalculateInterest := true }

noncomputable def exDBF : DB :=
  { investments := [exInvF], transactions := [], calculations := [],
    nextTxnId := 10, nextCalcId := 20 }

/-- Claim C1: under the Calculate-Now preconditions (owned, FIXED, ACTIVE,
rate set, elapsed days positive) a successful `calculateInterestNow` creates
exactly one RETURN transaction carrying the computed interest and new
balance, one InterestCalculation row whose `transactionId` links to it, and
updates the investment's `currentBalance`, `lastInterestCalculated` and
`nextInterestDue`.  The three writes form one `prisma.$transaction` step,
modelled as a single atomic transition: an `.error` result writes nothing,
so all writes take effect together or not at all. -/
theorem claim1_calculateInterestNow_writes {db : DB} {investmentId userId : Nat}
    {now : Int} {inv : Investment} {rate : ℝ} {db' : DB} {t : Transaction}
    {c : InterestCalculation}
    (hfind : findInvestment db investmentId userId = some inv)
    (hft : inv.returnType = ReturnType.FIXED)
    (hst : inv.status = InvStatus.ACTIVE)
    (hr : inv.interestRate = some rate)
    (hdays : 0 < calculateDaysBetween (inv.lastInterestCalculated.getD inv.startDate) now)
    (hok : calculateInterestNow db investmentId userId now = .ok (db', t, c)) :
    t.type = TxnType.RETURN ∧
    t.amount = (calculatePeriodInterest inv.currentBalance rate
      (inv.compoundingFrequency.getD Freq.MONTHLY)
      (calculateDaysBetween (inv.lastInterestCalculated.getD inv.startDate) now)).1 ∧
    t.balance = (calculatePeriodInterest inv.currentBalance rate
      (inv.compoundingFrequency.getD Freq.MONTHLY)
      (calculateDaysBetween (inv.lastInterestCalculated.getD inv.startDate) now)).2 ∧
    db'.transactions = db.transactions ++ [t] ∧
    db'.calculations = db.calculations ++ [c] ∧
    c.transactionId = some t.id ∧
    c.interestEarned = t.amount ∧
    findInvestment db' investmentId userId = some
      { inv with
          currentBalance := (calculatePeriodInterest inv.currentBalance rate
            (inv.compoundingFrequency.getD Freq.MONTHLY)
            (calculateDaysBetween (inv.lastInterestCalculated.getD inv.startDate) now)).2
          lastInterestCalculated := some now
          nextInterestDue := some (determineNextDueDate now
            (inv.compoundingFrequency.getD Freq.MONTHLY)) } := by
  have heq := calculateInterestNow_eq_ok hfind hft hst hr hdays
  rw [heq] at hok
  injection hok with h2
  have hdb : db' = (calcNowOk db inv rate now).1 := by rw [h2]
  have ht : t = (calcNowOk db inv rate now).2.1 := by rw [h2]
  have hc : c = (calcNowOk db inv rate now).2.2 := by rw [h2]
  subst hdb ht hc
  refine ⟨rfl, rfl, rfl, rfl, rfl, rfl, rfl, ?_⟩
  exact findInvestment_after_update _ hfind rfl (findInvestment_ids hfind).1
    (findInvestment_ids hfind).2

/-- Witness for C1 in the shared concrete scenario, one day after start. -/
theorem claim1_witness :
    findInvestment exDBF 1 1 = some exInvF ∧
    0 < calculateDaysBetween (exInvF.lastInterestCalculated.getD exInvF.startDate) 86400000 ∧
    ((calcNowOk exDBF exInvF 5 86400000).2.1.type = TxnType.RETURN ∧
      (calcNowOk exDBF exInvF 5 86400000).2.1.amount =
        (calculatePeriodInterest exInvF.currentBalance 5
          (exInvF.compoundingFrequency.getD Freq.MONTHLY)
          (calculateDaysBetween (exInvF.lastInterestCalculated.getD exInvF.startDate)
            86400000)).1 ∧
      (calcNowOk exDBF exInvF 5 86400000).2.1.balance =
        (calculatePeriodInterest exInvF.currentBalance 5
          (exInvF.compoundingFrequency.getD Freq.MONTHLY)
          (calculateDaysBetween (exInvF.lastInterestCalculated.getD exInvF.startDate)
            86400000)).2 ∧
      (calcNowOk exDBF exInvF 5 86400000).1.transactions =
        exDBF.transactions ++ [(calcNowOk exDBF exInvF 5 86400000).2.1] ∧
      (calcNowOk exDBF exInvF 5 86400000).1.calculations =
        exDBF.calculations ++ [(calcNowOk exDBF exInvF 5 86400000).2.2] ∧
      (calcNowOk exDBF exInvF 5 86400000).2.2.transactionId =
        some (calcNowOk exDBF exInvF 5 86400000).2.1.id ∧
      (calcNowOk exDBF exInvF 5 86400000).2.2.interestEarned =
        (calcNowOk exDBF exInvF 5 86400000).2.1.amount ∧
      findInvestment (calcNowOk exDBF exInvF 5 86400000).1 1 1 = some
        { exInvF with
            currentBalance := (calculatePeriodInterest exInvF.currentBalance 5
              (exInvF.compoundingFrequency.getD Freq.MONTHLY)
              (calculateDaysBetween (exInvF.lastInterestCalculated.getD exInvF.startDate)
                86400000)).2
            lastInterestCalculated := some 86400000
            nextInterestDue := some (determineNextDueDate 86400000
              (exInvF.compoundingFrequency.getD Freq.MONTHLY)) }) :=
  ⟨rfl, by decide,
    claim1_calculateInterestNow_writes (rfl) (rfl) (rfl) (rfl) (by decide)
      (calculateInterestNow_eq_ok (rfl) (rfl) (rfl) (rfl) (by decide))⟩

/-- Claim C5: `calculateDaysBetween` is the ceiling of the millisecond
difference over milliseconds-per-day; Calculate-Now rejects whenever that
value is non-positive; hence an immediately repeated Calculate-Now (no
elapsed time) fails with the "no new period" InvalidState error while the
first call's writes (already part of the store it returned) are untouched
by the failed second call. -/
theorem claim5_no_double_calculation (s e : Int) {db : DB} {investmentId userId : Nat}
    {now : Int} {inv : Investment} {rate : ℝ} {db' : DB} {t : Transaction}
    {c : InterestCalculation}
    (hfind : findInvestment db investmentId userId = some inv)
    (hft : inv.returnType = ReturnType.FIXED)
    (hst : inv.status = InvStatus.ACTIVE)
    (hr : inv.interestRate = some rate)
    (hdays : 0 < calculateDaysBetween (inv.lastInterestCalculated.getD inv.startDate) now)
    (hok : calculateInterestNow db investmentId userId now = .ok (db', t, c)) :
    calculateDaysBetween s e = ⌈((e : ℚ) - (s : ℚ)) / (1000 * 3600 * 24 : ℚ)⌉ ∧
    calculateInterestNow db' investmentId userId now =
      .error ⟨"No new period to calculate interest for", 400, none⟩ := by
  constructor
  · rw [calculateDaysBetween, show (1000 * 3600 * 24 : ℚ) = ((86400000 : ℕ) : ℚ) by norm_num,
      show ((e : ℚ) - (s : ℚ)) = ((e - s : ℤ) : ℚ) by push_cast; ring, msPerDay,
      show (86400000 : ℤ) = ((86400000 : ℕ) : ℤ) by norm_num]
    exact jsCeilDiv_eq_ceil _ _
  · have heq := calculateInterestNow_eq_ok hfind hft hst hr hdays
    rw [heq] at hok
    injection hok with h2
    have hdb : db' = (calcNowOk db inv rate now).1 := by rw [h2]
    subst hdb
    have hfind' : findInvestment (calcNowOk db inv rate now).1 investmentId userId = some
        { inv with
            currentBalance := (calculatePeriodInterest inv.currentBalance rate
              (inv.compoundingFrequency.getD Freq.MONTHLY)
              (calculateDaysBetween (inv.lastInterestCalculated.getD inv.startDate) now)).2
            lastInterestCalculated := some now
            nextInterestDue := some (determineNextDueDate now
              (inv.compoundingFrequency.getD Freq.MONTHLY)) } :=
      findInvestment_after_update _ hfind rfl (findInvestment_ids hfind).1
        (findInvestment_ids hfind).2
    simp [calculateInterestNow, hfind', hft, hst, hr,
      calculateDaysBetween, jsCeilDiv, msPerDay, Int.zero_fdiv]

/-- Witness for C5: one successful calculation at day one, then an immediate
second call at the same instant fails with the "no new period" error. -/
theorem claim5_witness :
    findInvestment exDBF 1 1 = some exInvF ∧
    0 < calculateDaysBetween (exInvF.lastInterestCalculated.getD exInvF.startDate) 86400000 ∧
    (calculateDaysBetween 0 86400000 =
      ⌈(((86400000 : Int) : ℚ) - ((0 : Int) : ℚ)) / (1000 * 3600 * 24 : ℚ)⌉ ∧
    calculateInterestNow (calcNowOk exDBF exInvF 5 86400000).1 1 1 86400000 =
      .error ⟨"No new period to calculate interest for", 400, none⟩) :=
  ⟨rfl, by decide,
    @claim5_no_double_calculation 0 86400000 exDBF 1 1 86400000 exInvF 5
      ((calcNowOk exDBF exInvF 5 86400000).1) ((calcNowOk exDBF exInvF 5 86400000).2.1)
      ((calcNowOk exDBF exInvF 5 86400000).2.2) (rfl) (rfl) (rfl) (rfl) (by decide)
      (@calculateInterestNow_eq_ok exDBF 1 1 86400000 exInvF 5 (rfl) (rfl) (rfl) (rfl)
        (by decide))⟩

theorem periodInterest_newBalance_nonneg (p rate : ℝ) (freq : Freq) (days : Int)
    (hp : 0 ≤ p) (hr : 0 ≤ rate) :
    0 ≤ (calculatePeriodInterest p rate freq days).2 := by
  have hn : (0:ℝ) < (frequencyN freq : ℝ) := by cases freq <;> norm_num [frequencyN]
  have hbase : (0:ℝ) ≤ 1 + rate / (frequencyN freq : ℝ) := by positivity
  have hpow : (0:ℝ) ≤ (1 + rate / (frequencyN freq : ℝ)) ^
      ((frequencyN freq : ℝ) * ((days : ℝ) / 365.25)) := Real.rpow_nonneg hbase _
  have hmul : (0:ℝ) ≤ p * ((1 + rate / (frequencyN freq : ℝ)) ^
      ((frequencyN freq : ℝ) * ((days : ℝ) / 365.25))) := mul_nonneg hp hpow
  show 0 ≤ p + p * ((1 + rate / (frequencyN freq : ℝ)) ^
      ((frequencyN freq : ℝ) * ((days : ℝ) / 365.25)) - 1)
  nlinarith [hmul]

theorem balancesNonneg_mapInvestment_of_unique {l : List Investment} {inv : Investment}
    (f : Investment → Investment) (hids : (l.map Investment.id).Nodup)
    (hmem : inv ∈ l) (h : ∀ i ∈ l, 0 ≤ i.currentBalance)
    (hf : 0 ≤ (f inv).currentBalance) :
    ∀ i ∈ mapInvestment l inv.id f, 0 ≤ i.currentBalance := by
  intro i hi
  obtain ⟨j, hj, hji⟩ := List.mem_map.mp hi
  by_cases hc : j.id = inv.id
  · have hji' : j = inv := List.inj_on_of_nodup_map hids hj hmem hc
    rw [if_pos hc] at hji
    rw [← hji, hji']
    exact hf
  · rw [if_neg hc] at hji
    rw [← hji]
    exact h j hj

theorem findOwnedTransaction_facts {db : DB} {transactionId userId : Nat}
    {t : Transaction} {inv : Investment}
    (h : findOwnedTransaction db transactionId userId = some (t, inv)) :
    t ∈ db.transactions ∧ inv ∈ db.investments ∧ inv.id = t.investmentId := by
  unfold findOwnedTransaction at h
  cases ht : db.transactions.find? (fun x => x.id == transactionId) with
  | none => rw [ht] at h; simp at h
  | some t0 =>
    rw [ht] at h
    simp only at h
    cases hi : db.investments.find? (fun i => i.id == t0.investmentId && i.userId == userId) with
    | none => rw [hi] at h; simp at h
    | some i0 =>
      rw [hi] at h
      simp only at h
      injection h with h'
      have ht0 : t0 = t := congrArg Prod.fst h'
      have hi0 : i0 = inv := congrArg Prod.snd h'
      subst ht0 hi0
      refine ⟨List.mem_of_find?_eq_some ht, List.mem_of_find?_eq_some hi, ?_⟩
      have := List.find?_some hi
      simp only [Bool.and_eq_true, beq_iff_eq] at this
      exact this.1

theorem calculateInterestNow_ok_cases {db : DB} {investmentId userId : Nat} {now : Int}
    {r : DB × Transaction × InterestCalculation}
    (h : calculateInterestNow db investmentId userId now = .ok r) :
    ∃ inv rate, findInvestment db investmentId userId = some inv ∧
      inv.interestRate = some rate ∧ r = calcNowOk db inv rate now := by
  unfold calculateInterestNow at h
  cases hf : findInvestment db investmentId userId with
  | none => rw [hf] at h; simp at h
  | some inv =>
    rw [hf] at h
    simp only at h
    cases hir : inv.interestRate with
    | none =>
      rw [hir] at h
      simp only at h
      split_ifs at h
    | some rate =>
      rw [hir] at h
      simp only at h
      split_ifs at h with h1 h2 h3
      injection h with h'
      exact ⟨inv, rate, rfl, hir, h'.symm⟩

theorem updateReturnPercentage_ok_cases {db : DB} {investmentId userId : Nat}
    {pct : ℝ} {eff : Int} {descr : Option String} {r : DB × Transaction}
    (h : updateReturnPercentage db investmentId userId pct eff descr = .ok r) :
    ∃ inv, findInvestment db investmentId userId = some inv ∧
      r.1.investments = mapInvestment db.investments inv.id
        (fun _ => { inv with
          currentBalance := inv.currentBalance + inv.currentBalance * (pct / 100) }) := by
  unfold updateReturnPercentage at h
  cases hf : findInvestment db investmentId userId with
  | none => rw [hf] at h; simp at h
  | some inv =>
    rw [hf] at h
    simp only at h
    split_ifs at h with h1 h2
    injection h with h'
    refine ⟨inv, rfl, ?_⟩
    rw [← h']

theorem updateBalanceCalculateReturn_ok_cases {db : DB} {investmentId userId : Nat}
    {newBalance : ℝ} {eff : Int} {descr : Option String} {r : DB × Transaction}
    (h : updateBalanceCalculateReturn db investmentId userId newBalance eff descr = .ok r) :
    ∃ inv, findInvestment db investmentId userId = some inv ∧ ¬ newBalance < 0 ∧
      r.1.investments = mapInvestment db.investments inv.id
        (fun _ => { inv with currentBalance := newBalance }) := by
  unfold updateBalanceCalculateReturn at h
  cases hf : findInvestment db investmentId userId with
  | none => rw [hf] at h; simp at h
  | some inv =>
    rw [hf] at h
    simp only at h
    split_ifs at h with h1 h2 h3 h4 <;> injection h with h' <;>
      exact ⟨inv, rfl, h3, by rw [← h']⟩

theorem createTransaction_ok_cases {db : DB} {userId : Nat} {input : TxnInput}
    {r : DB × Transaction}
    (h : createTransaction db userId input = .ok r) :
    ∃ inv, findInvestment db input.investmentId userId = some inv ∧
      (r.1.investments = db.investments ∨
        (0 ≤ inv.currentBalance + getBalanceImpact input.type input.amount ∧
          r.1.investments = mapInvestment db.investments input.investmentId
            (fun i => { i with
              currentBalance :=
                inv.currentBalance + getBalanceImpact input.type input.amount }))) := by
  unfold createTransaction at h
  cases hf : findInvestment db input.investmentId userId with
  | none => rw [hf] at h; simp at h
  | some inv =>
    rw [hf] at h
    simp only at h
    split_ifs at h with h1 h2 h3 h4 h5
    · -- balanceChange nonzero, negative-balance guard passed
      injection h with h'
      refine ⟨inv, rfl, Or.inr ⟨?_, by rw [← h']⟩⟩
      exact not_lt.mp (not_and.mp h4 h3)
    · -- balanceChange zero: no investment write
      injection h with h'
      exact ⟨inv, rfl, Or.inl (by rw [← h'])⟩

theorem updateTransaction_ok_cases {db : DB} {transactionId userId : Nat}
    {upd : TxnUpdate} {r : DB × Transaction}
    (h : updateTransaction db transactionId userId upd = .ok r) :
    ∃ t inv, findOwnedTransaction db transactionId userId = some (t, inv) ∧
      (r.1.investments = db.investments ∨
        (0 ≤ inv.currentBalance +
            (getBalanceImpact t.type (upd.amount.getD t.amount) -
              getBalanceImpact t.type t.amount) ∧
          r.1.investments = mapInvestment db.investments t.investmentId
            (fun i => { i with
              currentBalance := i.currentBalance +
                (getBalanceImpact t.type (upd.amount.getD t.amount) -
                  getBalanceImpact t.type t.amount) }))) := by
  unfold updateTransaction at h
  cases hf : findOwnedTransaction db transactionId userId with
  | none => rw [hf] at h; simp at h
  | some p =>
    obtain ⟨t, inv⟩ := p
    rw [hf] at h
    simp only at h
    cases ha : upd.amount with
    | none =>
      rw [ha] at h
      simp only [Option.isSome_none, Bool.false_eq_true, false_and, if_false] at h
      split_ifs at h with h1 h2
      · exact absurd rfl h2
      · injection h with h'
        exact ⟨t, inv, rfl, Or.inl (by rw [← h'])⟩
    | some a =>
      rw [ha] at h
      simp only [Option.isSome_some, true_and] at h
      split_ifs at h with h1 h2 h3
      · -- adjustment nonzero
        injection h with h'
        refine ⟨t, inv, rfl, Or.inr ⟨?_, ?_⟩⟩
        · simpa using not_lt.mp h2
        · rw [← h']
          simp
      · -- adjustment zero
        injection h with h'
        exact ⟨t, inv, rfl, Or.inl (by rw [← h'])⟩

theorem deleteTransaction_ok_cases {db : DB} {transactionId userId : Nat} {db2 : DB}
    (h : deleteTransaction db transactionId userId = .ok db2) :
    ∃ t inv, findOwnedTransaction db transactionId userId = some (t, inv) ∧
      (db2.investments = db.investments ∨
        (0 ≤ inv.currentBalance + -(getBalanceImpact t.type t.amount) ∧
          db2.investments = mapInvestment db.investments t.investmentId
            (fun i => { i with
              currentBalance :=
                inv.currentBalance + -(getBalanceImpact t.type t.amount) }))) := by
  unfold deleteTransaction at h
  cases hf : findOwnedTransaction db transactionId userId with
  | none => rw [hf] at h; simp at h
  | some p =>
    obtain ⟨t, inv⟩ := p
    rw [hf] at h
    simp only at h
    split_ifs at h with h1 h2 h3
    · injection h with h'
      exact ⟨t, inv, rfl, Or.inr ⟨not_lt.mp h2, by rw [← h']⟩⟩
    · injection h with h'
      exact ⟨t, inv, rfl, Or.inl (by rw [← h'])⟩

/-- Claim C4: for every store whose investment ids are unique and whose
balances and fixed rates are non-negative (the creation-time Joi bounds),
every engine or ledger operation of the claim — interest calculation,
variable percentage update (behind its -100..1000 schema bound), variable
balance update, transaction create/update/delete — yields a store whose
balances are still non-negative.  An attempt whose result would be negative
returns a 400 NegativeBalance/InvalidInput-class error, and an `.error`
result of the atomic step performs no write, leaving investment and
transactions unchanged. -/
theorem claim4_balance_never_negative (op : Op) (db db2 : DB)
    (hids : (db.investments.map Investment.id).Nodup)
    (hb : balancesNonneg db) (hrates : ratesNonneg db)
    (hok : runOp op db = .ok db2) : balancesNonneg db2 := by
  cases op with
  | calcInterest investmentId userId now =>
    simp only [runOp] at hok
    cases hc : calculateInterestNow db investmentId userId now with
    | error e => rw [hc] at hok; simp [Except.map] at hok
    | ok r =>
      rw [hc] at hok
      simp only [Except.map] at hok
      injection hok with h2
      obtain ⟨inv, rate, hf, hirate, hr2⟩ := calculateInterestNow_ok_cases hc
      subst h2
      rw [hr2]
      intro i hi
      have hi' : i ∈ mapInvestment db.investments inv.id
          (fun _ => { inv with
            currentBalance := (calculatePeriodInterest inv.currentBalance rate
              (inv.compoundingFrequency.getD Freq.MONTHLY)
              (calculateDaysBetween (inv.lastInterestCalculated.getD inv.startDate) now)).2
            lastInterestCalculated := some now
            nextInterestDue := some (determineNextDueDate now
              (inv.compoundingFrequency.getD Freq.MONTHLY)) }) := hi
      exact balancesNonneg_mapInvestment_of_unique _ hids (findInvestment_mem hf) hb
        (periodInterest_newBalance_nonneg _ _ _ _ (hb inv (findInvestment_mem hf))
          (hrates inv (findInvestment_mem hf) rate hirate)) i hi'
  | varPercentage investmentId userId pct eff descr =>
    simp only [runOp, updateReturnPercentageEndpoint] at hok
    split_ifs at hok with hrange
    case neg => simp [Except.map] at hok
    cases hc : updateReturnPercentage db investmentId userId pct eff descr with
    | error e => rw [hc] at hok; simp [Except.map] at hok
    | ok r =>
      rw [hc] at hok
      simp only [Except.map] at hok
      injection hok with h2
      obtain ⟨inv, hf, hinvs⟩ := updateReturnPercentage_ok_cases hc
      subst h2
      intro i hi
      rw [hinvs] at hi
      refine balancesNonneg_mapInvestment_of_unique _ hids (findInvestment_mem hf) hb ?_ i hi
      show 0 ≤ inv.currentBalance + inv.currentBalance * (pct / 100)
      have hc0 := hb inv (findInvestment_mem hf)
      have hm : 0 ≤ inv.currentBalance * ((pct + 100) / 100) :=
        mul_nonneg hc0 (by linarith [hrange.1])
      nlinarith [hm]
  | varBalance investmentId userId newBalance eff descr =>
    simp only [runOp, updateBalanceEndpoint] at hok
    split_ifs at hok with hrange
    case neg => simp [Except.map] at hok
    cases hc : updateBalanceCalculateReturn db investmentId userId newBalance eff descr with
    | error e => rw [hc] at hok; simp [Except.map] at hok
    | ok r =>
      rw [hc] at hok
      simp only [Except.map] at hok
      injection hok with h2
      obtain ⟨inv, hf, hnn, hinvs⟩ := updateBalanceCalculateReturn_ok_cases hc
      subst h2
      intro i hi
      rw [hinvs] at hi
      exact balancesNonneg_mapInvestment_of_unique _ hids (findInvestment_mem hf) hb
        (not_lt.mp hnn) i hi
  | txnCreate userId input =>
    simp only [runOp] at hok
    cases hc : createTransaction db userId input with
    | error e => rw [hc] at hok; simp [Except.map] at hok
    | ok r =>
      rw [hc] at hok
      simp only [Except.map] at hok
      injection hok with h2
      obtain ⟨inv, hf, hor⟩ := createTransaction_ok_cases hc
      subst h2
      rcases hor with hsame | ⟨hnn, hmap⟩
      · intro i hi; rw [hsame] at hi; exact hb i hi
      · intro i hi
        rw [hmap, ← (findInvestment_ids hf).1] at hi
        exact balancesNonneg_mapInvestment_of_unique _ hids (findInvestment_mem hf) hb
          hnn i hi
  | txnUpdate transactionId userId upd =>
    simp only [runOp] at hok
    cases hc : updateTransaction db transactionId userId upd with
    | error e => rw [hc] at hok; simp [Except.map] at hok
    | ok r =>
      rw [hc] at hok
      simp only [Except.map] at hok
      injection hok with h2
      obtain ⟨t, inv, hf, hor⟩ := updateTransaction_ok_cases hc
      subst h2
      obtain ⟨-, hmem, hid⟩ := findOwnedTransaction_facts hf
      rcases hor with hsame | ⟨hnn, hmap⟩
      · intro i hi; rw [hsame] at hi; exact hb i hi
      · intro i hi
        rw [hmap, ← hid] at hi
        exact balancesNonneg_mapInvestment_of_unique _ hids hmem hb hnn i hi
  | txnDelete transactionId userId =>
    simp only [runOp] at hok
    obtain ⟨t, inv, hf, hor⟩ := deleteTransaction_ok_cases hok
    obtain ⟨-, hmem, hid⟩ := findOwnedTransaction_facts hf
    rcases hor with hsame | ⟨hnn, hmap⟩
    · intro i hi; rw [hsame] at hi; exact hb i hi
    · intro i hi
      rw [hmap, ← hid] at hi
      exact balancesNonneg_mapInvestment_of_unique _ hids hmem hb hnn i hi

/-- Witness for C4: a Calculate-Now one day in on the shared scenario keeps
every balance non-negative. -/
theorem claim4_witness :
    (exDBF.investments.map Investment.id).Nodup ∧
    balancesNonneg exDBF ∧ ratesNonneg exDBF ∧
    balancesNonneg ((calcNowOk exDBF exInvF 5 86400000).1) :=
  ⟨by simp [exDBF, exInvF],
   by norm_num [balancesNonneg, exDBF, exInvF],
   by norm_num [ratesNonneg, exDBF, exInvF],
   claim4_balance_never_negative (Op.calcInterest 1 1 86400000) exDBF
     ((calcNowOk exDBF exInvF 5 86400000).1)
     (by simp [exDBF, exInvF])
     (by norm_num [balancesNonneg, exDBF, exInvF])
     (by norm_num [ratesNonneg, exDBF, exInvF])
     (by
       simp only [runOp]
       rw [@calculateInterestNow_eq_ok exDBF 1 1 86400000 exInvF 5 (rfl) (rfl) (rfl) (rfl)
         (by decide)]
       rfl)⟩

/-- Concrete CANCELLED fixed investment with one non-reverted calculation
and its linked RETURN transaction. -/
noncomputable def exInv7 : Investment :=
  { id := 1, userId := 1, initialAmount := 100, currentBalance := 110,
    returnType := ReturnType.FIXED, interestRate := some 5,
    compoundingFrequency := some Freq.MONTHLY, startDate := 0,
    status := InvStatus.CANCELLED, lastInterestCalculated := some 50,
    nextInterestDue := some 100, autoCalculateInterest := true }

noncomputable def exTxn7 : Transaction :=
  { id := 11, investmentId := 1, type := TxnType.RETURN, amount := 10,
    balance := 110, percentage := none, transactionDate := 50,
    description := "Auto interest for 50 day(s)" }

noncomputable def exCalc7 : InterestCalculation :=
  { id := 21, investmentId := 1, calculationType := CalcType.AUTOMATIC,
    calculatedAt := 50, periodStart := 0, periodEnd := 50,
    principalAmount := 100, interestRate := 5, interestEarned := 10,
    newBalance := 110, transactionId := some 11, isReverted := false,
    revertedAt := none, revertedBy := none }

noncomputable def exDB7 : DB :=
  { investments := [exInv7], transactions := [exTxn7], calculations := [exCalc7],
    nextTxnId := 12, nextCalcId := 22 }

/-- Counterexample to claim C7 as stated: `revertLastInterestCalculation`
performs no status check, so on a CANCELLED investment that still has a
non-reverted calculation the revert is NOT rejected — it succeeds (and
mutates the store), contradicting "every mutating operation is rejected". -/
theorem claim7_counterexample :
    exInv7.status = InvStatus.CANCELLED ∧
    isErr (revertLastInterestCalculation exDB7 1 1 99) = false :=
  ⟨rfl, rfl⟩

/-- Claim C7 amended: on a CANCELLED investment every listed mutating
operation EXCEPT revert — transaction create/update/delete, interest
calculation, and both variable return updates — is rejected (and an
`.error` result of the atomic step performs no write); revert alone is not
status-guarded. -/
theorem claim7_cancelled_rejected_amended {db : DB}
    {investmentId userId transactionId : Nat} {now eff : Int}
    {inv : Investment} {t : Transaction} {pct newBal : ℝ}
    {descr : Option String} {input : TxnInput} {upd : TxnUpdate}
    (hfind : findInvestment db investmentId userId = some inv)
    (hst : inv.status = InvStatus.CANCELLED)
    (hinput : input.investmentId = investmentId)
    (htx : findOwnedTransaction db transactionId userId = some (t, inv)) :
    isErr (calculateInterestNow db investmentId userId now) = true ∧
    isErr (updateReturnPercentage db investmentId userId pct eff descr) = true ∧
    isErr (updateBalanceCalculateReturn db investmentId userId newBal eff descr) = true ∧
    isErr (createTransaction db userId input) = true ∧
    isErr (updateTransaction db transactionId userId upd) = true ∧
    isErr (deleteTransaction db transactionId userId) = true := by
  have hstA : inv.status ≠ InvStatus.ACTIVE := by rw [hst]; exact fun hc => by cases hc
  refine ⟨?_, ?_, ?_, ?_, ?_, ?_⟩
  · simp [calculateInterestNow, hfind, hstA, isErr]
    split_ifs <;> rfl
  · simp [updateReturnPercentage, hfind, hstA, isErr]
    split_ifs <;> rfl
  · simp [updateBalanceCalculateReturn, hfind, hstA, isErr]
    split_ifs <;> rfl
  · simp [createTransaction, hinput, hfind, hst, isErr]
  · simp [updateTransaction, htx, hst, isErr]
  · simp [deleteTransaction, htx, hst, isErr]

/-- Witness for the amended C7 on the concrete CANCELLED scenario. -/
theorem claim7_witness :
    findInvestment exDB7 1 1 = some exInv7 ∧
    exInv7.status = InvStatus.CANCELLED ∧
    findOwnedTransaction exDB7 11 1 = some (exTxn7, exInv7) ∧
    (isErr (calculateInterestNow exDB7 1 1 200) = true ∧
      isErr (updateReturnPercentage exDB7 1 1 10 200 none) = true ∧
      isErr (updateBalanceCalculateReturn exDB7 1 1 120 200 none) = true ∧
      isErr (createTransaction exDB7 1
        { investmentId := 1, type := TxnType.DEPOSIT, amount := 5, percentage := none,
          transactionDate := 200, description := none }) = true ∧
      isErr (updateTransaction exDB7 11 1
        { amount := none, transactionDate := none, description := none }) = true ∧
      isErr (deleteTransaction exDB7 11 1) = true) :=
  ⟨rfl, rfl, rfl,
    claim7_cancelled_rejected_amended (rfl) (rfl) (rfl) (rfl)⟩

/-- Investment owned by user 1, used to exhibit the missing ownership check
of the schedule-update handler. -/
noncomputable def exInv8 : Investment :=
  { id := 1, userId := 1, initialAmount := 100, currentBalance := 100,
    returnType := ReturnType.FIXED, interestRate := some 5,
    compoundingFrequency := some Freq.MONTHLY, startDate := 0,
    status := InvStatus.ACTIVE, lastInterestCalculated := none,
    nextInterestDue := some 100, autoCalculateInterest := true }

noncomputable def exDB8 : DB :=
  { investments := [exInv8], transactions := [], calculations := [],
    nextTxnId := 10, nextCalcId := 20 }

/-- User 1's investment as caller 2's schedule update leaves it: schedule
fields overwritten although the caller does not own it. -/
noncomputable def exInv8upd : Investment :=
  { exInv8 with autoCalculateInterest := false, compoundingFrequency := some Freq.DAILY }

/-- Counterexample to claim C8 as stated: the schedule-update handler's
`prisma.investment.update({ where: { id } })` carries no `userId`, so caller
2 mutates user 1's investment instead of receiving NotFound. -/
theorem claim8_counterexample :
    exInv8.userId = 1 ∧
    findInvestment exDB8 1 2 = none ∧
    updateInvestmentScheduleHandler exDB8 1 2 false Freq.DAILY =
      .ok { exDB8 with investments := [exInv8upd] } :=
  ⟨rfl, rfl, rfl⟩

/-- Claim C8 amended: every engine and ledger operation EXCEPT the
schedule update — calculate-now, revert, both variable updates, and
transaction create/update/delete — returns a 404 NotFound error when the
caller does not own the investment (the same error whether the investment
is missing or owned by someone else, so existence is not revealed), and the
`.error` result performs no write; the schedule update alone performs no
ownership check. -/
theorem claim8_not_found_amended {db : DB} {investmentId userId transactionId : Nat}
    {now eff : Int} {pct newBal : ℝ} {descr : Option String}
    {input : TxnInput} {upd : TxnUpdate}
    (hnone : findInvestment db investmentId userId = none)
    (hinput : input.investmentId = investmentId)
    (htx : findOwnedTransaction db transactionId userId = none) :
    calculateInterestNow db investmentId userId now = .error investmentNotFound ∧
    revertLastInterestCalculation db investmentId userId now = .error investmentNotFound ∧
    updateReturnPercentage db investmentId userId pct eff descr =
      .error investmentNotFound ∧
    updateBalanceCalculateReturn db investmentId userId newBal eff descr =
      .error investmentNotFound ∧
    createTransaction db userId input =
      .error ⟨"Investment not found", 404, some "INVESTMENT_NOT_FOUND"⟩ ∧
    updateTransaction db transactionId userId upd =
      .error ⟨"Transaction not found", 404, some "TRANSACTION_NOT_FOUND"⟩ ∧
    deleteTransaction db transactionId userId =
      .error ⟨"Transaction not found", 404, some "TRANSACTION_NOT_FOUND"⟩ := by
  refine ⟨?_, ?_, ?_, ?_, ?_, ?_, ?_⟩
  · simp [calculateInterestNow, hnone]
  · simp [revertLastInterestCalculation, hnone]
  · simp [updateReturnPercentage, hnone]
  · simp [updateBalanceCalculateReturn, hnone]
  · simp [createTransaction, hinput, hnone]
  · simp [updateTransaction, htx]
  · simp [deleteTransaction, htx]

/-- Witness for the amended C8: caller 2 against user 1's store. -/
theorem claim8_witness :
    findInvestment exDB8 1 2 = none ∧
    findOwnedTransaction exDB8 7 2 = none ∧
    (calculateInterestNow exDB8 1 2 200 = .error investmentNotFound ∧
      revertLastInterestCalculation exDB8 1 2 200 = .error investmentNotFound ∧
      updateReturnPercentage exDB8 1 2 10 200 none = .error investmentNotFound ∧
      updateBalanceCalculateReturn exDB8 1 2 120 200 none = .error investmentNotFound ∧
      createTransaction exDB8 2
        { investmentId := 1, type := TxnType.DEPOSIT, amount := 5, percentage := none,
          transactionDate := 200, description := none } =
        .error ⟨"Investment not found", 404, some "INVESTMENT_NOT_FOUND"⟩ ∧
      updateTransaction exDB8 7 2
        { amount := none, transactionDate := none, description := none } =
        .error ⟨"Transaction not found", 404, some "TRANSACTION_NOT_FOUND"⟩ ∧
      deleteTransaction exDB8 7 2 =
        .error ⟨"Transaction not found", 404, some "TRANSACTION_NOT_FOUND"⟩) :=
  ⟨rfl, rfl, claim8_not_found_amended (rfl) (rfl) (rfl)⟩

theorem map_id_of_mem {α : Type} {l : List α} {f : α → α} (h : ∀ a ∈ l, f a = a) :
    l.map f = l := by
  conv_rhs => rw [← List.map_id l]
  exact List.map_congr_left h

theorem revertLastInterestCalculation_eq_ok (now2 : Int) {db2 : DB}
    {investmentId userId : Nat} {inv2 : Investment} {lc : InterestCalculation} {tid : Nat}
    (hfind2 : findInvestment db2 investmentId userId = some inv2)
    (hlast : lastNonReverted db2.calculations inv2.id = some lc)
    (htid : lc.transactionId = some tid)
    (hany : db2.transactions.any (fun x => x.id == tid) = true) :
    revertLastInterestCalculation db2 investmentId userId now2 =
      .ok (revertFinish db2 inv2 lc userId now2
        (db2.transactions.filter (fun x => x.id != tid))
        (db2.calculations.map (fun cc =>
          if cc.id = lc.id then
            { cc with isReverted := true, revertedAt := some now2, revertedBy := some userId }
          else cc))) := by
  simp only [revertLastInterestCalculation]
  rw [hfind2]
  simp only
  rw [hlast]
  simp only
  rw [htid]
  simp only
  rw [hany]
  simp only [if_true]

theorem findInvestment_after_revertFinish {db2 : DB} {investmentId userId : Nat}
    {inv2 : Investment} {lc : InterestCalculation} {now2 : Int} {uid : Nat}
    (txns : List Transaction) (calcs : List InterestCalculation)
    (hfind2 : findInvestment db2 investmentId userId = some inv2) :
    findInvestment (revertFinish db2 inv2 lc uid now2 txns calcs).1 investmentId userId =
      some { inv2 with
        currentBalance := inv2.currentBalance - lc.interestEarned
        lastInterestCalculated :=
          (lastNonRevertedBefore calcs inv2.id lc.calculatedAt).map (fun p => p.calculatedAt)
        nextInterestDue := some (determineNextDueDate
          (match lastNonRevertedBefore calcs inv2.id lc.calculatedAt with
            | some p => p.calculatedAt
            | none => now2)
          (inv2.compoundingFrequency.getD Freq.MONTHLY)) } :=
  findInvestment_after_update _ hfind2 rfl (findInvestment_ids hfind2).1
    (findInvestment_ids hfind2).2

/-- Claim C3: a successful Calculate-Now followed immediately by
Revert-Last-Calculation restores `currentBalance` and
`lastInterestCalculated` to their pre-calculation values and leaves no
linked RETURN transaction.  The extra hypotheses are reachable-store
invariants: stored ids never collide with the id supplies, every earlier
non-reverted calculation of the investment predates `now`, and
`lastInterestCalculated` is the timestamp of the latest non-reverted
calculation (null when there is none) — exactly what the calculation path
itself maintains. -/
theorem claim3_calc_then_revert_roundtrip {db : DB} {investmentId userId : Nat}
    {now now2 : Int} {inv : Investment} {rate : ℝ} {db' : DB} {t : Transaction}
    {c : InterestCalculation} {db'' : DB} {rc : InterestCalculation}
    (hfind : findInvestment db investmentId userId = some inv)
    (hft : inv.returnType = ReturnType.FIXED)
    (hst : inv.status = InvStatus.ACTIVE)
    (hr : inv.interestRate = some rate)
    (hdays : 0 < calculateDaysBetween (inv.lastInterestCalculated.getD inv.startDate) now)
    (hfreshT : ∀ tr ∈ db.transactions, tr.id ≠ db.nextTxnId)
    (hfreshC : ∀ cc ∈ db.calculations, cc.id ≠ db.nextCalcId)
    (hlt : ∀ cc ∈ db.calculations, cc.investmentId = inv.id → cc.isReverted = false →
      cc.calculatedAt < now)
    (hcons : (lastNonReverted db.calculations inv.id).map (fun p => p.calculatedAt) =
      inv.lastInterestCalculated)
    (hok : calculateInterestNow db investmentId userId now = .ok (db', t, c))
    (hrev : revertLastInterestCalculation db' investmentId userId now2 = .ok (db'', rc)) :
    db''.transactions = db.transactions ∧
    t ∉ db''.transactions ∧
    (findInvestment db'' investmentId userId).map (fun i => i.currentBalance) =
      some inv.currentBalance ∧
    (findInvestment db'' investmentId userId).map (fun i => i.lastInterestCalculated) =
      some inv.lastInterestCalculated := by
  -- resolve the calculate-now result
  have heq := calculateInterestNow_eq_ok hfind hft hst hr hdays
  rw [heq] at hok
  injection hok with h2
  have hdb : db' = (calcNowOk db inv rate now).1 := by rw [h2]
  have ht : t = (calcNowOk db inv rate now).2.1 := by rw [h2]
  have hcc : c = (calcNowOk db inv rate now).2.2 := by rw [h2]
  subst hdb ht hcc
  -- shorthand facts about the created rows, all definitional
  have hdbT : (calcNowOk db inv rate now).1.transactions =
      db.transactions ++ [(calcNowOk db inv rate now).2.1] := rfl
  have hdbC : (calcNowOk db inv rate now).1.calculations =
      db.calculations ++ [(calcNowOk db inv rate now).2.2] := rfl
  have htid : ((calcNowOk db inv rate now).2.1).id = db.nextTxnId := rfl
  have hcid : ((calcNowOk db inv rate now).2.2).id = db.nextCalcId := rfl
  have hcinv : ((calcNowOk db inv rate now).2.2).investmentId = inv.id := rfl
  have hcAt : ((calcNowOk db inv rate now).2.2).calculatedAt = now := rfl
  have hcrev : ((calcNowOk db inv rate now).2.2).isReverted = false := rfl
  have hctx : ((calcNowOk db inv rate now).2.2).transactionId = some db.nextTxnId := rfl
  -- the investment as stored after the calculation
  have hfind' : findInvestment (calcNowOk db inv rate now).1 investmentId userId =
      some { inv with
        currentBalance := (calculatePeriodInterest inv.currentBalance rate
          (inv.compoundingFrequency.getD Freq.MONTHLY)
          (calculateDaysBetween (inv.lastInterestCalculated.getD inv.startDate) now)).2
        lastInterestCalculated := some now
        nextInterestDue := some (determineNextDueDate now
          (inv.compoundingFrequency.getD Freq.MONTHLY)) } :=
    findInvestment_after_update _ hfind rfl (findInvestment_ids hfind).1
      (findInvestment_ids hfind).2
  -- the new calculation row is the revert target
  have hNR : nonRevertedCalcs (calcNowOk db inv rate now).1.calculations inv.id =
      nonRevertedCalcs db.calculations inv.id ++ [(calcNowOk db inv rate now).2.2] := by
    rw [hdbC]
    unfold nonRevertedCalcs
    rw [List.filter_append]
    congr 1
    simp [hcinv, hcrev]
  have hlast : lastNonReverted (calcNowOk db inv rate now).1.calculations inv.id =
      some ((calcNowOk db inv rate now).2.2) := by
    unfold lastNonReverted
    rw [hNR]
    apply maxByCalculatedAt_append_max
    intro x hx
    rw [hcAt]
    obtain ⟨hxm, hxp⟩ := List.mem_filter.mp hx
    simp only [Bool.and_eq_true, beq_iff_eq, Bool.not_eq_true'] at hxp
    exact hlt x hxm hxp.1 hxp.2
  have hany : (calcNowOk db inv rate now).1.transactions.any
      (fun x => x.id == db.nextTxnId) = true := by
    rw [hdbT]
    refine List.any_eq_true.mpr ⟨(calcNowOk db inv rate now).2.1,
      List.mem_append_right _ (List.mem_singleton_self _), ?_⟩
    rw [htid]
    exact beq_self_eq_true _
  -- run the revert
  have hreveq := revertLastInterestCalculation_eq_ok now2 hfind' hlast hctx hany
  rw [hreveq] at hrev
  injection hrev with h3
  have hdb'' : db'' = (revertFinish (calcNowOk db inv rate now).1
      { inv with
        currentBalance := (calculatePeriodInterest inv.currentBalance rate
          (inv.compoundingFrequency.getD Freq.MONTHLY)
          (calculateDaysBetween (inv.lastInterestCalculated.getD inv.startDate) now)).2
        lastInterestCalculated := some now
        nextInterestDue := some (determineNextDueDate now
          (inv.compoundingFrequency.getD Freq.MONTHLY)) }
      ((calcNowOk db inv rate now).2.2) userId now2
      ((calcNowOk db inv rate now).1.transactions.filter (fun x => x.id != db.nextTxnId))
      ((calcNowOk db inv rate now).1.calculations.map (fun cc =>
        if cc.id = ((calcNowOk db inv rate now).2.2).id then
          { cc with isReverted := true, revertedAt := some now2, revertedBy := some userId }
        else cc))).1 := by rw [h3]
  -- the transaction table is restored
  have hTfilter : (calcNowOk db inv rate now).1.transactions.filter
      (fun x => x.id != db.nextTxnId) = db.transactions := by
    rw [hdbT, List.filter_append]
    have h1 : db.transactions.filter (fun x => x.id != db.nextTxnId) = db.transactions :=
      List.filter_eq_self.mpr (fun x hx => by simpa using hfreshT x hx)
    have h2 : [(calcNowOk db inv rate now).2.1].filter (fun x => x.id != db.nextTxnId) =
        [] := by simp [htid]
    rw [h1, h2, List.append_nil]
  have hTrans : db''.transactions = db.transactions := by
    rw [hdb'']
    exact hTfilter
  -- marking the new row leaves the old calculation table unchanged
  have hCALCS : (calcNowOk db inv rate now).1.calculations.map (fun cc =>
      if cc.id = ((calcNowOk db inv rate now).2.2).id then
        { cc with isReverted := true, revertedAt := some now2, revertedBy := some userId }
      else cc) =
      db.calculations ++ [{ (calcNowOk db inv rate now).2.2 with
        isReverted := true, revertedAt := some now2, revertedBy := some userId }] := by
    rw [hdbC, List.map_append]
    congr 1
    · exact map_id_of_mem (fun a ha => if_neg (by rw [hcid]; exact hfreshC a ha))
    · simp
  -- the previous calculation seen by the revert is the pre-call latest one
  have hprev : lastNonRevertedBefore
      (db.calculations ++ [{ (calcNowOk db inv rate now).2.2 with
        isReverted := true, revertedAt := some now2, revertedBy := some userId }])
      inv.id now = lastNonReverted db.calculations inv.id := by
    unfold lastNonRevertedBefore lastNonReverted
    congr 1
    rw [List.filter_append]
    have hm : [{ (calcNowOk db inv rate now).2.2 with
        isReverted := true, revertedAt := some now2, revertedBy := some userId }].filter
        (fun cc => cc.investmentId == inv.id && !cc.isReverted &&
          decide (cc.calculatedAt < now)) = [] := by simp
    rw [hm, List.append_nil]
    unfold nonRevertedCalcs
    apply List.filter_congr
    intro cc hcc
    by_cases h1 : cc.investmentId = inv.id
    · by_cases h2 : cc.isReverted
      · simp [h1, h2]
      · have h3 := hlt cc hcc h1 (by simpa using h2)
        simp [h1, h2, h3]
    · simp [h1]
  refine ⟨hTrans, ?_, ?_, ?_⟩
  · intro hmem
    rw [hTrans] at hmem
    exact hfreshT _ hmem htid
  · rw [hdb'', findInvestment_after_revertFinish _ _ hfind']
    exact congrArg some (add_sub_cancel_right inv.currentBalance _)
  · rw [hdb'', findInvestment_after_revertFinish _ _ hfind']
    show some ((lastNonRevertedBefore
      ((calcNowOk db inv rate now).1.calculations.map (fun cc =>
        if cc.id = ((calcNowOk db inv rate now).2.2).id then
          { cc with isReverted := true, revertedAt := some now2, revertedBy := some userId }
        else cc))
      inv.id now).map (fun p => p.calculatedAt)) = some inv.lastInterestCalculated
    rw [hCALCS, hprev, hcons]

/-- The shared investment as stored right after the day-one calculation. -/
noncomputable def exInvF2 : Investment :=
  { exInvF with
      currentBalance := (calculatePeriodInterest exInvF.currentBalance 5
        (exInvF.compoundingFrequency.getD Freq.MONTHLY)
        (calculateDaysBetween (exInvF.lastInterestCalculated.getD exInvF.startDate)
          86400000)).2
      lastInterestCalculated := some 86400000
      nextInterestDue := some (determineNextDueDate 86400000
        (exInvF.compoundingFrequency.getD Freq.MONTHLY)) }

/-- The concrete day-one Calculate-Now run on the shared scenario. -/
noncomputable def exCalcRun : DB × Transaction × InterestCalculation :=
  calcNowOk exDBF exInvF 5 86400000

/-- The immediately following revert of that calculation. -/
noncomputable def exRevertRun : DB × InterestCalculation :=
  revertFinish exCalcRun.1 exInvF2 exCalcRun.2.2 1 86400001
    (exCalcRun.1.transactions.filter (fun x => x.id != 10))
    (exCalcRun.1.calculations.map (fun cc =>
      if cc.id = exCalcRun.2.2.id then
        { cc with isReverted := true, revertedAt := some 86400001, revertedBy := some 1 }
      else cc))

/-- Witness for C3: calculate at day one, revert right after — balance and
last-calculated timestamp are back, the RETURN transaction is gone. -/
theorem claim3_witness :
    findInvestment exDBF 1 1 = some exInvF ∧
    0 < calculateDaysBetween (exInvF.lastInterestCalculated.getD exInvF.startDate)
      86400000 ∧
    (exRevertRun.1.transactions = exDBF.transactions ∧
      exCalcRun.2.1 ∉ exRevertRun.1.transactions ∧
      (findInvestment exRevertRun.1 1 1).map (fun i => i.currentBalance) =
        some exInvF.currentBalance ∧
      (findInvestment exRevertRun.1 1 1).map (fun i => i.lastInterestCalculated) =
        some exInvF.lastInterestCalculated) :=
  ⟨rfl, by decide,
    @claim3_calc_then_revert_roundtrip exDBF 1 1 86400000 86400001 exInvF 5
      exCalcRun.1 exCalcRun.2.1 exCalcRun.2.2 exRevertRun.1 exRevertRun.2
      (rfl) (rfl) (rfl) (rfl) (by decide)
      (by simp [exDBF]) (by simp [exDBF]) (by simp [exDBF]) (rfl)
      (@calculateInterestNow_eq_ok exDBF 1 1 86400000 exInvF 5 (rfl) (rfl) (rfl) (rfl)
        (by decide))
      (@revertLastInterestCalculation_eq_ok 86400001 exCalcRun.1 1 1 exInvF2
        exCalcRun.2.2 10 (rfl) (rfl) (rfl) (rfl))⟩

end EAccounting
